import Mathlib

/-!
# Verification of the realtime transcriber components

This file gives a shallow embedding of the two transcriber components of the
repository:

* `Part000` embeds the WebSocket-based transcriber (`src/unnamed/part_000`):
  its `RecordingState`, the `websocket.onmessage` dispatch over the four
  server message types, the `websocket.onerror` handler, the cleanup
  helpers, the Float32-to-PCM16 sample conversion, the `displayText`
  selection and the keydown guard.  Message delivery is modelled by folding
  the handler over a list of incoming messages; a closed WebSocket delivers
  no message events, which is modelled by the handler being the identity
  when the socket is closed.

* `Page` embeds the SDK-based transcriber
  (`src/apps/www/registry/elevenlabs-ui/blocks/realtime-transcriber-01/page.tsx`):
  the latency-measurement state (`segmentStartMsRef`, `lastTranscriptRef`,
  `latenciesMs`), the `onPartialTranscript` / `onFinalTranscript` callbacks,
  the periodic audio-chunk tick, `averageLatency`, `fullTranscript` and
  `displayText`, and the keydown guard.

Timestamps and latency samples are modelled as rationals (the JavaScript
numbers involved are `performance.now ()` differences); JavaScript array and
string idioms (`slice` with a negative index, `join`, truthiness of strings,
`Math.round`, `Int16Array` stores) are embedded as explicit Lean functions.
-/

namespace Part000

/-- The `RecordingState` React state of `src/unnamed/part_000` (lines 12-19). -/
structure RecordingState where
  isRecording : Bool
  isProcessing : Bool
  isConnecting : Bool
  transcript : String
  partialTranscript : String
  error : String
  deriving Repr, DecidableEq

/-- The full session state: the React `RecordingState` together with the
WebSocket reference (`websocketRef.current` being non-null), whether the
underlying socket is open, and whether the media stream is active. -/
structure SessionState where
  recording : RecordingState
  refSet : Bool
  socketOpen : Bool
  streamActive : Bool
  deriving Repr, DecidableEq

/-- The server-to-client WebSocket messages (`WebSocketMessage`,
`src/unnamed/part_000` lines 43-47). -/
inductive WsMessage where
  | sessionStarted : WsMessage
  | partialTranscript (transcript : String) : WsMessage
  | finalTranscript (transcript : String) : WsMessage
  | errorMsg (error : String) : WsMessage
  deriving Repr, DecidableEq

/-- `cleanupWebSocket` (lines 86-91): if the ref is set, close the socket and
clear the ref; otherwise do nothing. -/
def cleanupWebSocket (s : SessionState) : SessionState :=
  if s.refSet then { s with refSet := false, socketOpen := false } else s

/-- `cleanupStream` (lines 79-84): stop the media tracks if a stream is held. -/
def cleanupStream (s : SessionState) : SessionState :=
  if s.streamActive then { s with streamActive := false } else s

/-- The `websocket.onmessage` dispatch (lines 147-233).  A closed WebSocket
dispatches no `message` events, so the handler is the identity when
`socketOpen` is false. -/
def onMessage (s : SessionState) (m : WsMessage) : SessionState :=
  if s.socketOpen = false then s else
  match m with
  | .sessionStarted =>
      { s with recording := { s.recording with isConnecting := false, isRecording := true } }
  | .partialTranscript t =>
      { s with recording := { s.recording with partialTranscript := t } }
  | .finalTranscript t =>
      cleanupWebSocket
        { s with recording := { s.recording with
            transcript := t, partialTranscript := "", isProcessing := false } }
  | .errorMsg e =>
      cleanupWebSocket
        { s with recording := { s.recording with
            error := e, isProcessing := false,
            isRecording := false, isConnecting := false } }

/-- The `websocket.onerror` handler (lines 235-245). -/
def onWsError (s : SessionState) : SessionState :=
  cleanupWebSocket (cleanupStream
    { s with recording := { s.recording with
        error := "Connection error", isRecording := false,
        isConnecting := false, isProcessing := false } })

/-- Delivering a sequence of server messages to the handler in order. -/
def processMessages (s : SessionState) (ms : List WsMessage) : SessionState :=
  ms.foldl onMessage s

/-- JavaScript `a || b` over strings, where the empty string is the only
falsy string. -/
def jsOrString (a b : String) : String :=
  if a = "" then b else a

/-- `displayText` of `src/unnamed/part_000` (lines 365-366):
`recording.error || recording.partialTranscript || recording.transcript`. -/
def displayText (r : RecordingState) : String :=
  jsOrString r.error (jsOrString r.partialTranscript r.transcript)

/-- The keydown handler's guard (lines 272-285): `startRecording` is invoked
iff the Alt key is down, no session is active, and the event target is an
HTML element whose tag is neither INPUT nor TEXTAREA. -/
def handleKeyDownFires (altKey : Bool) (r : RecordingState)
    (targetIsHTMLElement : Bool) (targetTagName : String) : Bool :=
  altKey && !r.isRecording && !r.isConnecting && !r.isProcessing &&
    targetIsHTMLElement && !(["INPUT", "TEXTAREA"].contains targetTagName)

/-- `Math.max(-1, Math.min(1, inputData[i]))` (`src/unnamed/part_000`,
line 174): clamp a sample to `[-1, 1]`. -/
def clampSample (x : ℚ) : ℚ := max (-1) (min 1 x)

/-- Truncation towards zero: the number-to-integer step of a JavaScript
`Int16Array` store. -/
def truncQ (x : ℚ) : Int := if 0 ≤ x then ⌊x⌋ else ⌈x⌉

/-- The wrap of an integer into the Int16 range, the final step of an
`Int16Array` store: reduce mod `2 ^ 16` and re-centre into
`[-2 ^ 15, 2 ^ 15)`. -/
def toInt16 (v : Int) : Int :=
  if 32768 ≤ v % 65536 then v % 65536 - 65536 else v % 65536

/-- The Float32-to-PCM16 conversion (`src/unnamed/part_000`, lines 170-175):
`pcmData[i] = Math.max(-1, Math.min(1, inputData[i])) * 0x7fff`, the result
being stored into an `Int16Array`. -/
def floatToPcm16 (x : ℚ) : Int := toInt16 (truncQ (clampSample x * 0x7fff))

end Part000

namespace Page

/-- `Array.prototype.slice(start)` for a possibly negative `start`
(`latenciesMs.slice(-29)` in `page.tsx`, lines 267 and 288): a negative
start counts from the end, clamped at 0. -/
def jsSliceFrom (l : List ℚ) (start : Int) : List ℚ :=
  if start < 0 then l.drop (max ((l.length : Int) + start) 0).toNat
  else l.drop start.toNat

/-- `Math.round` of JavaScript: round half towards positive infinity. -/
def jsRound (x : ℚ) : Int := ⌊x + 1 / 2⌋

/-- The latency-measurement state of `page.tsx`: `lastTranscriptRef.current`
(line 238), `segmentStartMsRef.current` (line 237) and
`recording.latenciesMs` (lines 17-20, 225-228). -/
structure ScribeState where
  lastTranscript : String
  segmentStart : Option ℚ
  latenciesMs : List ℚ
  deriving Repr, DecidableEq

/-- `onPartialTranscript` (`page.tsx`, lines 251-272), at event time `now`.
`text?` is the optional `data.text`; `data.text || ""` is its default to the
empty string.  Duplicate texts are skipped; otherwise `lastTranscriptRef` is
updated and, when the text is non-empty and a segment-start time is pending,
the latency `now - start` is appended (keeping the last 29 samples) and the
segment-start time is reset to null. -/
def onPartialTranscript (s : ScribeState) (text? : Option String) (now : ℚ) :
    ScribeState :=
  let currentText := text?.getD ""
  if currentText = s.lastTranscript then s
  else
    match s.segmentStart with
    | some start =>
        if 0 < currentText.length then
          { s with lastTranscript := currentText,
                   latenciesMs := jsSliceFrom s.latenciesMs (-29) ++ [now - start],
                   segmentStart := none }
        else { s with lastTranscript := currentText }
    | none => { s with lastTranscript := currentText }

/-- `onFinalTranscript` (`page.tsx`, lines 274-293), at event time `now`.
`lastTranscriptRef` is reset to the empty string; when `data.text` is truthy
(present and non-empty) and a segment-start time is pending, the latency is
recorded; the segment-start time is reset to null unconditionally. -/
def onFinalTranscript (s : ScribeState) (text? : Option String) (now : ℚ) :
    ScribeState :=
  match s.segmentStart with
  | some start =>
      if 0 < (text?.getD "").length then
        { s with lastTranscript := "",
                 latenciesMs := jsSliceFrom s.latenciesMs (-29) ++ [now - start],
                 segmentStart := none }
      else { s with lastTranscript := "", segmentStart := none }
  | none => { s with lastTranscript := "", segmentStart := none }

/-- The periodic audio-chunk tick (`page.tsx`, lines 330-344): the interval
callback sets `segmentStartMsRef.current` to the current time only when it is
currently null. -/
def tick (s : ScribeState) (now : ℚ) : ScribeState :=
  if s.segmentStart = none then { s with segmentStart := some now } else s

/-- `averageLatency` (`page.tsx`, lines 575-581): 0 for an empty sample list,
otherwise `Math.round` of `reduce((sum, v) => sum + v, 0)` divided by the
length. -/
def averageLatency (l : List ℚ) : Int :=
  if l.length = 0 then 0
  else jsRound (l.foldl (fun sum v => sum + v) 0 / (l.length : ℚ))

/-- `Array.prototype.join(sep)` of JavaScript. -/
def jsJoin (sep : String) : List String → String
  | [] => ""
  | [x] => x
  | x :: y :: xs => x ++ sep ++ jsJoin sep (y :: xs)

/-- `fullTranscript` (`page.tsx`, lines 552-555): the texts of
`scribe.finalTranscripts` joined by `" "`; the argument is the list of those
texts. -/
def fullTranscript (finalTexts : List String) : String :=
  jsJoin " " finalTexts

/-- `displayText` (`page.tsx`, lines 558-561):
`recording.error || scribe.partialTranscript || fullTranscript`. -/
def displayText (error partialText : String) (finalTexts : List String) :
    String :=
  Part000.jsOrString error (Part000.jsOrString partialText (fullTranscript finalTexts))

/-- The keydown handler's guard (`page.tsx`, lines 482-494):
`handleToggleRecording` is invoked iff the key is "k" with Meta or Ctrl held
and the event target is an HTML element whose tag is neither INPUT nor
TEXTAREA. -/
def handleKeyDownFires (key : String) (metaKey ctrlKey : Bool)
    (targetIsHTMLElement : Bool) (targetTagName : String) : Bool :=
  key = "k" && (metaKey || ctrlKey) && targetIsHTMLElement &&
    !(["INPUT", "TEXTAREA"].contains targetTagName)

end Page

/-- A concrete mid-session state of the WebSocket transcriber, used to
instantiate the theorems below at concrete inputs. -/
def sampleSession : Part000.SessionState :=
  { recording := { isRecording := true, isProcessing := false,
                   isConnecting := false, transcript := "",
                   partialTranscript := "hel", error := "" },
    refSet := true, socketOpen := true, streamActive := true }

/-- A concrete mid-session state of the SDK transcriber, used to instantiate
the theorems below at concrete inputs. -/
def sampleScribe : Page.ScribeState :=
  { lastTranscript := "hel", segmentStart := some 100, latenciesMs := [250, 310] }

/-! ## Helper lemmas -/

namespace Part000

theorem onMessage_closed (s : SessionState) (m : WsMessage)
    (h : s.socketOpen = false) : onMessage s m = s := by
  simp [onMessage, h]

theorem cleanupWebSocket_socketOpen (s : SessionState) (h : s.refSet = true) :
    (cleanupWebSocket s).socketOpen = false ∧ (cleanupWebSocket s).refSet = false := by
  simp [cleanupWebSocket, h]

theorem cleanupWebSocket_recording (s : SessionState) :
    (cleanupWebSocket s).recording = s.recording := by
  unfold cleanupWebSocket
  split <;> rfl

theorem processMessages_closed (s : SessionState) (ms : List WsMessage)
    (h : s.socketOpen = false) : processMessages s ms = s := by
  induction ms with
  | nil => rfl
  | cons m ms ih =>
      show processMessages (onMessage s m) ms = s
      rw [onMessage_closed s m h, ih]

theorem clampSample_mem (x : ℚ) :
    -1 ≤ clampSample x ∧ clampSample x ≤ 1 :=
  ⟨le_max_left _ _, max_le (by norm_num) (min_le_left _ _)⟩

theorem clampSample_mono {x y : ℚ} (h : x ≤ y) :
    clampSample x ≤ clampSample y :=
  max_le_max le_rfl (min_le_min le_rfl h)

theorem truncQ_bounds {x : ℚ} (h1 : -32767 ≤ x) (h2 : x ≤ 32767) :
    -32767 ≤ truncQ x ∧ truncQ x ≤ 32767 := by
  unfold truncQ
  split
  · constructor
    · have h0 : (0 : Int) ≤ ⌊x⌋ := Int.floor_nonneg.mpr (by assumption)
      omega
    · have : (⌊x⌋ : ℚ) ≤ 32767 := le_trans (Int.floor_le x) h2
      exact_mod_cast this
  · constructor
    · have : (-32767 : ℚ) ≤ (⌈x⌉ : ℚ) := le_trans h1 (Int.le_ceil x)
      exact_mod_cast this
    · have h0 : ⌈x⌉ ≤ 0 := Int.ceil_le.mpr (by exact_mod_cast le_of_not_le (by assumption : ¬ (0 : ℚ) ≤ x))
      omega

theorem truncQ_mono {x y : ℚ} (h : x ≤ y) : truncQ x ≤ truncQ y := by
  unfold truncQ
  split
  · rw [if_pos (le_trans (by assumption) h)]
    exact Int.floor_le_floor h
  · split
    · have hcx : ⌈x⌉ ≤ 0 := Int.ceil_le.mpr (by exact_mod_cast le_of_not_le (by assumption : ¬ (0 : ℚ) ≤ x))
      have hfy : (0 : Int) ≤ ⌊y⌋ := Int.floor_nonneg.mpr (by assumption)
      omega
    · exact Int.ceil_le_ceil h

theorem toInt16_eq_self {v : Int} (h1 : -32768 ≤ v) (h2 : v < 32768) :
    toInt16 v = v := by
  unfold toInt16
  omega

theorem floatToPcm16_eq_trunc (z : ℚ) :
    floatToPcm16 z = truncQ (clampSample z * 32767) := by
  unfold floatToPcm16
  have h1 : -32767 ≤ clampSample z * 32767 := by
    have := (clampSample_mem z).1
    nlinarith
  have h2 : clampSample z * 32767 ≤ 32767 := by
    have := (clampSample_mem z).2
    nlinarith
  have hb := truncQ_bounds h1 h2
  exact toInt16_eq_self (by omega) (by omega)

end Part000

namespace Page

theorem jsSliceFrom_neg29 (l : List ℚ) :
    jsSliceFrom l (-29) = l.drop (l.length - 29) := by
  unfold jsSliceFrom
  rw [if_pos (by norm_num)]
  congr 1
  omega

theorem jsSliceFrom_neg29_length (l : List ℚ) :
    (jsSliceFrom l (-29)).length ≤ 29 := by
  rw [jsSliceFrom_neg29, List.length_drop]
  omega

theorem foldl_add_eq_sum (l : List ℚ) :
    ∀ a : ℚ, l.foldl (fun sum v => sum + v) a = a + l.sum := by
  induction l with
  | nil => intro a; simp
  | cons x xs ih =>
      intro a
      rw [List.foldl_cons, ih (a + x), List.sum_cons]
      ring

theorem jsJoin_go (sep : String) :
    ∀ (l : List String) (a b : String),
      String.intercalate.go (a ++ b) sep l = a ++ String.intercalate.go b sep l := by
  intro l
  induction l with
  | nil => intro a b; rfl
  | cons x xs ih =>
      intro a b
      show String.intercalate.go (a ++ b ++ sep ++ x) sep xs
        = a ++ String.intercalate.go (b ++ sep ++ x) sep xs
      rw [String.append_assoc, String.append_assoc, ← String.append_assoc b sep x]
      exact ih a (b ++ sep ++ x)

theorem jsJoin_eq_intercalate (sep : String) :
    ∀ l : List String, jsJoin sep l = String.intercalate sep l := by
  intro l
  induction l with
  | nil => rfl
  | cons x xs ih =>
      cases xs with
      | nil => rfl
      | cons y ys =>
          show x ++ sep ++ jsJoin sep (y :: ys) = String.intercalate.go x sep (y :: ys)
          rw [ih]
          show x ++ sep ++ String.intercalate.go y sep ys
            = String.intercalate.go (x ++ sep ++ y) sep ys
          rw [jsJoin_go sep ys (x ++ sep) y]

theorem recordLatency_window (l : List ℚ) (x : ℚ) :
    jsSliceFrom l (-29) ++ [x] = l.drop (l.length - 29) ++ [x] ∧
    (jsSliceFrom l (-29) ++ [x]).length ≤ 30 := by
  constructor
  · rw [jsSliceFrom_neg29]
  · rw [List.length_append]
    have := jsSliceFrom_neg29_length l
    simp only [List.length_singleton]
    omega

end Page

/-! ## The claims -/

/-- C1: final transcripts are immutable once emitted.  In the WebSocket
transcriber, processing a `final_transcript` message commits the text and
closes the WebSocket, so no subsequent message (partial, final or otherwise)
changes the committed text. -/
theorem final_transcript_immutable (s : Part000.SessionState) (t : String)
    (ms : List Part000.WsMessage) (hopen : s.socketOpen = true)
    (href : s.refSet = true) :
    (Part000.processMessages
        (Part000.onMessage s (.finalTranscript t)) ms).recording.transcript = t := by
  have h1 : Part000.onMessage s (.finalTranscript t)
      = { recording :=
            { s.recording with
                transcript := t, partialTranscript := "", isProcessing := false },
          refSet := false, socketOpen := false, streamActive := s.streamActive } := by
    simp [Part000.onMessage, Part000.cleanupWebSocket, hopen, href]
  rw [h1, Part000.processMessages_closed _ _ rfl]

/-- Witness for C1 at a concrete session state and message sequence. -/
theorem final_transcript_immutable_witness :
    (Part000.processMessages
        (Part000.onMessage sampleSession (.finalTranscript "hello world"))
        [.partialTranscript "intruder", .finalTranscript "other",
         .errorMsg "boom"]).recording.transcript = "hello world" :=
  final_transcript_immutable sampleSession "hello world"
    [.partialTranscript "intruder", .finalTranscript "other", .errorMsg "boom"]
    rfl rfl

/-- C2: a `partial_transcript` message replaces the stored partial
transcript with the message's text, and a `final_transcript` message resets
the stored partial transcript to the empty string (in `page.tsx`,
`onFinalTranscript` resets the last-seen transcript to the empty string). -/
theorem partialTranscript_semantics (s : Part000.SessionState) (t u : String)
    (hopen : s.socketOpen = true) :
    (Part000.onMessage s (.partialTranscript t)).recording.partialTranscript = t ∧
    (Part000.onMessage s (.finalTranscript u)).recording.partialTranscript = "" ∧
    ∀ (s2 : Page.ScribeState) (text : Option String) (now : ℚ),
      (Page.onFinalTranscript s2 text now).lastTranscript = "" := by
  refine ⟨?_, ?_, ?_⟩
  · simp [Part000.onMessage, hopen]
  · simp [Part000.onMessage, hopen, Part000.cleanupWebSocket_recording]
  · intro s2 text now
    unfold Page.onFinalTranscript
    cases hseg : s2.segmentStart with
    | none => rfl
    | some start =>
        dsimp only
        split <;> rfl

/-- Witness for C2 at concrete states and texts. -/
theorem partialTranscript_semantics_witness :
    (Part000.onMessage sampleSession (.partialTranscript "abc")).recording.partialTranscript = "abc" ∧
    (Page.onFinalTranscript sampleScribe (some "hello") 160).lastTranscript = "" :=
  ⟨(partialTranscript_semantics sampleSession "abc" "done" rfl).1,
   (partialTranscript_semantics sampleSession "abc" "done" rfl).2.2
     sampleScribe (some "hello") 160⟩

/-- C3: the latency sample list is a bounded sliding window: a call of
`onPartialTranscript` or `onFinalTranscript` either leaves `latenciesMs`
unchanged or, when it records a latency, replaces it by the last at-most-29
previous entries followed by the newly measured latency, for a length of at
most 30. -/
theorem latencies_sliding_window (s : Page.ScribeState) (text : Option String)
    (now : ℚ) :
    ((Page.onPartialTranscript s text now).latenciesMs = s.latenciesMs ∨
      ∃ start, s.segmentStart = some start ∧
        (Page.onPartialTranscript s text now).latenciesMs
          = s.latenciesMs.drop (s.latenciesMs.length - 29) ++ [now - start] ∧
        (Page.onPartialTranscript s text now).latenciesMs.length ≤ 30) ∧
    ((Page.onFinalTranscript s text now).latenciesMs = s.latenciesMs ∨
      ∃ start, s.segmentStart = some start ∧
        (Page.onFinalTranscript s text now).latenciesMs
          = s.latenciesMs.drop (s.latenciesMs.length - 29) ++ [now - start] ∧
        (Page.onFinalTranscript s text now).latenciesMs.length ≤ 30) := by
  constructor
  · unfold Page.onPartialTranscript
    by_cases hdup : text.getD "" = s.lastTranscript
    · left; simp [hdup]
    · cases hseg : s.segmentStart with
      | none => left; simp [hdup]
      | some start =>
          by_cases hlen : 0 < (text.getD "").length
          · right
            refine ⟨start, rfl, ?_, ?_⟩
            · simp only [hdup, if_neg, ite_false, hlen, if_pos, ite_true]
              exact (Page.recordLatency_window s.latenciesMs (now - start)).1
            · simp only [hdup, if_neg, ite_false, hlen, if_pos, ite_true]
              exact (Page.recordLatency_window s.latenciesMs (now - start)).2
          · left; simp [hdup, hlen]
  · unfold Page.onFinalTranscript
    cases hseg : s.segmentStart with
    | none => left; rfl
    | some start =>
        by_cases hlen : 0 < (text.getD "").length
        · right
          refine ⟨start, rfl, ?_, ?_⟩
          · simp only [hlen, if_pos, ite_true]
            exact (Page.recordLatency_window s.latenciesMs (now - start)).1
          · simp only [hlen, if_pos, ite_true]
            exact (Page.recordLatency_window s.latenciesMs (now - start)).2
        · left; simp [hlen]

/-- C4: the displayed average latency is 0 when `latenciesMs` is empty and
otherwise the arithmetic mean of the entries rounded to the nearest integer
(`Math.round`); the computation is total. -/
theorem averageLatency_spec (l : List ℚ) (h : l ≠ []) :
    Page.averageLatency [] = 0 ∧
    Page.averageLatency l = Page.jsRound (l.sum / (l.length : ℚ)) := by
  refine ⟨rfl, ?_⟩
  unfold Page.averageLatency
  rw [if_neg (by simpa using h), Page.foldl_add_eq_sum l 0, zero_add]

/-- Witness for C4 at a concrete sample list. -/
theorem averageLatency_spec_witness :
    ([(10 : ℚ), 20, 31] : List ℚ) ≠ [] ∧
    Page.averageLatency [(10 : ℚ), 20, 31]
      = Page.jsRound (([(10 : ℚ), 20, 31] : List ℚ).sum
          / (([(10 : ℚ), 20, 31] : List ℚ).length : ℚ)) :=
  ⟨by simp, (averageLatency_spec [(10 : ℚ), 20, 31] (by simp)).2⟩

/-- C5: the presented text follows the fixed precedence error, then partial
transcript, then final transcript, in both components; in `page.tsx` the
final fallback is the final transcripts' texts joined by single spaces. -/
theorem displayText_precedence (r : Part000.RecordingState)
    (error partialText : String) (finalTexts : List String) :
    (r.error ≠ "" → Part000.displayText r = r.error) ∧
    (r.error = "" → r.partialTranscript ≠ "" →
      Part000.displayText r = r.partialTranscript) ∧
    (r.error = "" → r.partialTranscript = "" →
      Part000.displayText r = r.transcript) ∧
    (error ≠ "" → Page.displayText error partialText finalTexts = error) ∧
    (error = "" → partialText ≠ "" →
      Page.displayText error partialText finalTexts = partialText) ∧
    (error = "" → partialText = "" →
      Page.displayText error partialText finalTexts
        = String.intercalate " " finalTexts) ∧
    Page.fullTranscript finalTexts = String.intercalate " " finalTexts := by
  have hj : Page.fullTranscript finalTexts = String.intercalate " " finalTexts :=
    Page.jsJoin_eq_intercalate " " finalTexts
  refine ⟨?_, ?_, ?_, ?_, ?_, ?_, hj⟩ <;> intros <;>
    simp_all [Part000.displayText, Page.displayText, Part000.jsOrString]

/-- Witness for C5 at concrete states. -/
theorem displayText_precedence_witness :
    Part000.displayText sampleSession.recording
      = sampleSession.recording.partialTranscript ∧
    Page.displayText "" "hyp" ["a", "b"] = "hyp" :=
  ⟨(displayText_precedence sampleSession.recording "" "hyp" ["a", "b"]).2.1
     rfl (by decide),
   (displayText_precedence sampleSession.recording "" "hyp" ["a", "b"]).2.2.2.2.1
     rfl (by decide)⟩

/-- C6: the segment-start timer protocol: the periodic tick sets
`segmentStartMs` only when it is currently null, `onFinalTranscript` always
resets it to null, and an `onPartialTranscript` call that records a latency
resets it to null, the recorded latency being the elapsed time `now - start`
from the pending tick time `start` to the transcript event. -/
theorem segment_timer_protocol (s : Page.ScribeState) (text : Option String)
    (now : ℚ) :
    (s.segmentStart ≠ none → Page.tick s now = s) ∧
    (s.segmentStart = none → (Page.tick s now).segmentStart = some now) ∧
    (Page.onFinalTranscript s text now).segmentStart = none ∧
    ((Page.onPartialTranscript s text now).latenciesMs ≠ s.latenciesMs →
      ∃ start, s.segmentStart = some start ∧
        (Page.onPartialTranscript s text now).latenciesMs
          = s.latenciesMs.drop (s.latenciesMs.length - 29) ++ [now - start] ∧
        (Page.onPartialTranscript s text now).segmentStart = none) := by
  refine ⟨?_, ?_, ?_, ?_⟩
  · intro h
    simp [Page.tick, h]
  · intro h
    simp [Page.tick, h]
  · unfold Page.onFinalTranscript
    cases hseg : s.segmentStart with
    | none => rfl
    | some start =>
        dsimp only
        split <;> rfl
  · unfold Page.onPartialTranscript
    by_cases hdup : text.getD "" = s.lastTranscript
    · intro hne
      simp [hdup] at hne
    · cases hseg : s.segmentStart with
      | none =>
          intro hne
          simp [hdup] at hne
      | some start =>
          by_cases hlen : 0 < (text.getD "").length
          · intro _
            refine ⟨start, rfl, ?_, ?_⟩
            · simp only [hdup, if_neg, ite_false, hlen, if_pos, ite_true]
              exact (Page.recordLatency_window s.latenciesMs (now - start)).1
            · simp [hdup, hlen]
          · intro hne
            simp [hdup, hlen] at hne

/-- Witness for C6 at a concrete state. -/
theorem segment_timer_protocol_witness :
    Page.tick sampleScribe 500 = sampleScribe ∧
    (Page.onFinalTranscript sampleScribe (some "hello") 160).segmentStart = none ∧
    ∃ start, sampleScribe.segmentStart = some start ∧
      (Page.onPartialTranscript sampleScribe (some "hello") 160).latenciesMs
        = sampleScribe.latenciesMs.drop (sampleScribe.latenciesMs.length - 29)
            ++ [160 - start] ∧
      (Page.onPartialTranscript sampleScribe (some "hello") 160).segmentStart = none :=
  ⟨(segment_timer_protocol sampleScribe (some "hello") 160).1 (by decide),
   (segment_timer_protocol sampleScribe (some "hello") 160).2.2.1,
   (segment_timer_protocol sampleScribe (some "hello") 160).2.2.2 (by decide)⟩

/-- C7: the keyboard shortcuts never start or toggle recording when the key
event's target is an INPUT or TEXTAREA element: the keydown guards of both
components evaluate to false for such targets, so `handleToggleRecording`
and `startRecording` are not invoked. -/
theorem keyboard_guard_input_textarea (key : String)
    (metaKey ctrlKey altKey : Bool) (r : Part000.RecordingState)
    (isElem : Bool) (tag : String)
    (h : tag = "INPUT" ∨ tag = "TEXTAREA") :
    Page.handleKeyDownFires key metaKey ctrlKey isElem tag = false ∧
    Part000.handleKeyDownFires altKey r isElem tag = false := by
  rcases h with h | h <;> subst h <;>
    exact ⟨by simp [Page.handleKeyDownFires],
           by simp [Part000.handleKeyDownFires]⟩

/-- Witness for C7 at a concrete key event. -/
theorem keyboard_guard_input_textarea_witness :
    Page.handleKeyDownFires "k" true false true "INPUT" = false ∧
    Part000.handleKeyDownFires true sampleSession.recording true "INPUT" = false :=
  keyboard_guard_input_textarea "k" true false true sampleSession.recording
    true "INPUT" (Or.inl rfl)

/-- C8: `onPartialTranscript` is idempotent on duplicate events: when the
event's text (a missing text read as the empty string) equals the
immediately previously seen text, the handler leaves the whole state
unchanged. -/
theorem onPartialTranscript_duplicate_noop (s : Page.ScribeState)
    (text : Option String) (now : ℚ) (h : text.getD "" = s.lastTranscript) :
    Page.onPartialTranscript s text now = s := by
  unfold Page.onPartialTranscript
  simp [h]

/-- Witness for C8 at a concrete duplicate event. -/
theorem onPartialTranscript_duplicate_noop_witness :
    Page.onPartialTranscript sampleScribe (some "hel") 999 = sampleScribe :=
  onPartialTranscript_duplicate_noop sampleScribe (some "hel") 999 rfl

/-- C9: the Float32-to-PCM16 conversion is a clamped monotone map: the
produced value is the truncation of `clamp(x, -1, 1) * 0x7fff` (the Int16
wrap of the store never changes it), every output lies in
`[-32767, 32767]`, and larger inputs never map to smaller outputs. -/
theorem pcm16_clamped_monotone (x y : ℚ) :
    Part000.floatToPcm16 x = Part000.truncQ (max (-1) (min 1 x) * 0x7fff) ∧
    -32767 ≤ Part000.floatToPcm16 x ∧ Part000.floatToPcm16 x ≤ 32767 ∧
    (x ≤ y → Part000.floatToPcm16 x ≤ Part000.floatToPcm16 y) := by
  have hx := Part000.floatToPcm16_eq_trunc x
  have hy := Part000.floatToPcm16_eq_trunc y
  have hbx := Part000.truncQ_bounds
    (x := Part000.clampSample x * 32767)
    (by have := (Part000.clampSample_mem x).1; nlinarith)
    (by have := (Part000.clampSample_mem x).2; nlinarith)
  refine ⟨hx, ?_, ?_, ?_⟩
  · rw [hx]; exact hbx.1
  · rw [hx]; exact hbx.2
  · intro hxy
    rw [hx, hy]
    exact Part000.truncQ_mono
      (mul_le_mul_of_nonneg_right (Part000.clampSample_mono hxy) (by norm_num))

/-- Witness for C9 at concrete samples. -/
theorem pcm16_clamped_monotone_witness :
    Part000.floatToPcm16 (-2)
      = Part000.truncQ (max (-1) (min 1 (-2 : ℚ)) * 0x7fff) ∧
    -32767 ≤ Part000.floatToPcm16 (-2 : ℚ) ∧
    Part000.floatToPcm16 (-2 : ℚ) ≤ 32767 ∧
    Part000.floatToPcm16 (-2 : ℚ) ≤ Part000.floatToPcm16 (1 / 2) :=
  ⟨(pcm16_clamped_monotone (-2) (1 / 2)).1,
   (pcm16_clamped_monotone (-2) (1 / 2)).2.1,
   (pcm16_clamped_monotone (-2) (1 / 2)).2.2.1,
   (pcm16_clamped_monotone (-2) (1 / 2)).2.2.2 (by norm_num)⟩

/-- C10: every error path resets the session consistently: a server message
with message_type "error" and a WebSocket error event both set the error
text, set isRecording, isConnecting and isProcessing to false, close the
WebSocket and clear its reference. -/
theorem error_paths_reset (s : Part000.SessionState) (e : String)
    (hopen : s.socketOpen = true) (href : s.refSet = true) :
    ((Part000.onMessage s (.errorMsg e)).recording.error = e ∧
     (Part000.onMessage s (.errorMsg e)).recording.isRecording = false ∧
     (Part000.onMessage s (.errorMsg e)).recording.isConnecting = false ∧
     (Part000.onMessage s (.errorMsg e)).recording.isProcessing = false ∧
     (Part000.onMessage s (.errorMsg e)).socketOpen = false ∧
     (Part000.onMessage s (.errorMsg e)).refSet = false) ∧
    ((Part000.onWsError s).recording.error = "Connection error" ∧
     (Part000.onWsError s).recording.isRecording = false ∧
     (Part000.onWsError s).recording.isConnecting = false ∧
     (Part000.onWsError s).recording.isProcessing = false ∧
     (Part000.onWsError s).socketOpen = false ∧
     (Part000.onWsError s).refSet = false) := by
  constructor
  · simp [Part000.onMessage, Part000.cleanupWebSocket, hopen, href]
  · unfold Part000.onWsError Part000.cleanupStream
    by_cases hstr : s.streamActive <;>
      simp [hstr, Part000.cleanupWebSocket, href]

/-- Witness for C10 at a concrete session state. -/
theorem error_paths_reset_witness :
    (Part000.onMessage sampleSession (.errorMsg "quota")).recording.error = "quota" ∧
    (Part000.onMessage sampleSession (.errorMsg "quota")).socketOpen = false ∧
    (Part000.onWsError sampleSession).recording.error = "Connection error" ∧
    (Part000.onWsError sampleSession).refSet = false :=
  ⟨(error_paths_reset sampleSession "quota" rfl rfl).1.1,
   (error_paths_reset sampleSession "quota" rfl rfl).1.2.2.2.2.1,
   (error_paths_reset sampleSession "quota" rfl rfl).2.1,
   (error_paths_reset sampleSession "quota" rfl rfl).2.2.2.2.2.2⟩
